import Mathlib

/-
Verification of the navigation history controller of the Nextordersl
storefront (src/script.js, with the near-identical second variant in
src/unnamed/part_000 embedded in namespace V2 below).

The embedding models the React component state that the navigation
subsystem reads and writes:
  * `navStack`               — the `navStack` useState, a list of nav entries,
                               seeded with `[{ type: 'home' }]`;
  * `allowExit` / `exitConfirmationShown`
                             — the two useRef booleans `allowExitRef.current`
                               and `exitConfirmationShownRef.current`;
  * `showExitConfirmation`   — the useState driving the confirmation modal;
  * `activeTab`, `selectedProduct`, `showCMS`, `affiliateActiveTab`
                             — the view state the restore code writes;
  * `isAdmin`, `isAffiliate` — the role state mirrored into `isAdminRef` /
                               `isAffiliateRef` by effects;
  * `hashIsProduct`          — embeds the browser-URL predicate
                               `window.location.hash.startsWith('#product-')`
                               read by the selected-product hash effect
                               (script.js lines 803-811); it is set by the
                               effect's own pushes and left unchanged by the
                               other history calls, which reuse
                               `window.location.href`.

Products are represented by their numeric ids: the only product operation the
subsystem performs is `productsRef.current.find(p => p.id === prevState.id)`,
i.e. a lookup by id, so the catalog is a `List Int` of ids.

Physical history operations (`window.history.*` calls) are not executed but
logged, one `HistOp` per call, in program order.
-/

namespace Nextorder

/-- A navigation entry, the tagged payload pushed on `navStack`: the objects
`{type:'home'}`, `{type:'tab', value}`, `{type:'product', id}`, `{type:'cms'}`
and `{type:'affiliate-tab', tab}` of the source. -/
inductive NavEntry where
  | home
  | tab (value : String)
  | product (id : Int)
  | cms
  | affiliateTab (tab : String)
deriving DecidableEq, Repr

/-- One physical history operation performed by the subsystem.
`pushEntry e` is `window.history.pushState(navState, '', location.href)` in
`pushNavState`; `pushTrap` is `window.history.pushState(null, '', location.href)`
(the "trap" pushes of the exit-confirmation logic); `pushHash id` is
`window.history.pushState(null, null, '#product-' + id)` and `pushClearHash` is
`window.history.pushState(null, null, '#')`, both from the selected-product
effect; `back` is `window.history.back()`. -/
inductive HistOp where
  | pushEntry (e : NavEntry)
  | pushTrap
  | pushHash (id : Int)
  | pushClearHash
  | back
deriving DecidableEq, Repr

/-- The component state read and written by the navigation subsystem. -/
structure AppState where
  navStack : List NavEntry
  allowExit : Bool
  exitConfirmationShown : Bool
  showExitConfirmation : Bool
  activeTab : String
  selectedProduct : Option Int
  showCMS : Bool
  affiliateActiveTab : String
  isAdmin : Bool
  isAffiliate : Bool
  hashIsProduct : Bool
deriving DecidableEq, Repr

/-- State at page load: `useState([{ type: 'home' }])` for the stack, both
exit refs `useRef(false)`, modal hidden, `useState('home')` for the tabs and
`useState(null)` for the selected product.  The role flags and the initial
URL-fragment shape vary with the stored session, so they are parameters. -/
def initState (isAdmin isAffiliate hashIsProduct : Bool) : AppState :=
  { navStack := [NavEntry.home]
    allowExit := false
    exitConfirmationShown := false
    showExitConfirmation := false
    activeTab := "home"
    selectedProduct := none
    showCMS := false
    affiliateActiveTab := "home"
    isAdmin := isAdmin
    isAffiliate := isAffiliate
    hashIsProduct := hashIsProduct }

/-- The restore chain of `handlePopState` (script.js lines 839-864): given the
new top entry `prevState` after a pop, write the view state back.  The
`products` argument embeds `productsRef.current` as the list of catalog ids. -/
def restoreView (products : List Int) (prevState : NavEntry) (s : AppState) : AppState :=
  match prevState with
  | NavEntry.home =>
      let s1 := { s with activeTab := "home", selectedProduct := none, showCMS := false }
      if s.isAffiliate then { s1 with affiliateActiveTab := "home" } else s1
  | NavEntry.tab value =>
      { s with activeTab := value, selectedProduct := none, showCMS := false }
  | NavEntry.product id =>
      if products.contains id then { s with selectedProduct := some id }
      else { s with selectedProduct := none, activeTab := "home" }
  | NavEntry.cms =>
      if s.isAdmin then { s with showCMS := true } else s
  | NavEntry.affiliateTab tab =>
      if s.isAffiliate then { s with affiliateActiveTab := tab } else s

/-- The popstate handler (script.js lines 815-868): consume `allowExit`, else
consume `exitConfirmationShown` with a trap push, else either arm the
exit confirmation (stack at its floor) with a trap push, or pop one entry
(`slice(0, -1)`) and restore the new top (`newStack[newStack.length - 1]`).
The `none` branch of the match is unreachable: it is taken only when the
popped stack is empty, which the `length <= 1` guard rules out. -/
def handlePopState (products : List Int) (s : AppState) : AppState × List HistOp :=
  if s.allowExit then
    ({ s with allowExit := false }, [])
  else if s.exitConfirmationShown then
    ({ s with exitConfirmationShown := false, showExitConfirmation := false },
     [HistOp.pushTrap])
  else if s.navStack.length ≤ 1 then
    ({ s with exitConfirmationShown := true, showExitConfirmation := true },
     [HistOp.pushTrap])
  else
    let newStack := s.navStack.dropLast
    match newStack.getLast? with
    | some prevState =>
        ({ restoreView products prevState s with navStack := newStack }, [])
    | none => ({ s with navStack := newStack }, [])

/-- Append `navState` to the stack and push one physical entry
(script.js lines 879-882). -/
def pushNavState (navState : NavEntry) (s : AppState) : AppState × List HistOp :=
  ({ s with navStack := s.navStack ++ [navState] }, [HistOp.pushEntry navState])

/-- In-app tab navigation (script.js lines 884-890): select the tab, clear the
product view, then push a `tab` entry.  The `typeof target === 'string'` guard
is discharged by the type of `target`. -/
def navigateTo (target : String) (s : AppState) : AppState × List HistOp :=
  pushNavState (NavEntry.tab target)
    { s with activeTab := target, selectedProduct := none }

/-- Logout (script.js lines 1594-1604): clears the role state, closes the CMS,
resets both tab selections and resets the stack to `[{ type: 'home' }]`.  The
`setIsLoggedIn` / `setCurrentUser` / `showModal` calls touch only excluded
collaborator state.  Note that it does not write `allowExitRef`,
`exitConfirmationShownRef`, `showExitConfirmation` or `selectedProduct`. -/
def handleLogout (s : AppState) : AppState :=
  { s with isAdmin := false
           isAffiliate := false
           showCMS := false
           activeTab := "home"
           affiliateActiveTab := "home"
           navStack := [NavEntry.home] }

/-- The confirmation dialog's Yes action (script.js lines 1611-1616): clear
the confirmation flag and modal, arm `allowExit`, then `window.history.back()`. -/
def handleExitConfirm (s : AppState) : AppState × List HistOp :=
  ({ s with exitConfirmationShown := false
            showExitConfirmation := false
            allowExit := true },
   [HistOp.back])

/-- The confirmation dialog's No action (script.js lines 1618-1622): clear the
confirmation flag and modal, then unconditionally push a trap entry. -/
def handleExitCancel (s : AppState) : AppState × List HistOp :=
  ({ s with exitConfirmationShown := false, showExitConfirmation := false },
   [HistOp.pushTrap])

/-- The selected-product URL effect (script.js lines 803-811), which reruns
whenever its dependency `selectedProduct` changed in the render that the
triggering event produced: if a product is selected, push `#product-<id>`;
otherwise, if the location hash still carries a product fragment, push `#`. -/
def hashEffect (prevSelected : Option Int) (s : AppState) : AppState × List HistOp :=
  if s.selectedProduct = prevSelected then (s, [])
  else
    match s.selectedProduct with
    | some id => ({ s with hashIsProduct := true }, [HistOp.pushHash id])
    | none =>
        if s.hashIsProduct then
          ({ s with hashIsProduct := false }, [HistOp.pushClearHash])
        else (s, [])

/-- Run the selected-product effect after an event handler's own history
calls: React flushes the batched state updates and runs effects after the
handler returns, so the effect's push is logged last. -/
def withHashEffect (prevSelected : Option Int) (r : AppState × List HistOp) :
    AppState × List HistOp :=
  match hashEffect prevSelected r.1 with
  | (s1, l1) => (s1, r.2 ++ l1)

/-- The events that drive the navigation subsystem: the public pushes (with
the concrete call sites that issue them), the asynchronous popstate
notification, the two confirmation-dialog actions, and logout. -/
inductive Op where
  | pushNav (navState : NavEntry)
  | goTo (target : String)
  | openProduct (id : Int)
  | openCms
  | openAffiliateTab (tab : String)
  | popstate
  | confirmExit
  | cancelExit
  | logout
deriving DecidableEq, Repr

/-- One event delivery.  `openProduct` is the product-card click
`setSelectedProduct(product); pushNavState({type:'product', id})`
(script.js lines 2360-2362), `openCms` the admin button
`setShowCMS(true); pushNavState({type:'cms'})` (lines 2748-2750), and
`openAffiliateTab` the affiliate tab button (lines 1789-1792).  Handlers
that change `selectedProduct` are followed by the hash effect. -/
def step (products : List Int) (op : Op) (s : AppState) : AppState × List HistOp :=
  match op with
  | Op.pushNav e => pushNavState e s
  | Op.goTo t => withHashEffect s.selectedProduct (navigateTo t s)
  | Op.openProduct id =>
      withHashEffect s.selectedProduct
        (pushNavState (NavEntry.product id) { s with selectedProduct := some id })
  | Op.openCms => pushNavState NavEntry.cms { s with showCMS := true }
  | Op.openAffiliateTab t =>
      pushNavState (NavEntry.affiliateTab t) { s with affiliateActiveTab := t }
  | Op.popstate => withHashEffect s.selectedProduct (handlePopState products s)
  | Op.confirmExit => handleExitConfirm s
  | Op.cancelExit => handleExitCancel s
  | Op.logout => (handleLogout s, [])

/-- A run of the subsystem: the current state, the physical history operations
logged so far, and the number of entries popped off the stack by popstate
handling (verification instrumentation, not part of the source). -/
structure Trace where
  state : AppState
  log : List HistOp
  pops : Nat
deriving DecidableEq, Repr

/-- Number of stack entries a single event popped: nonzero only for popstate
deliveries, where it is the drop in stack length. -/
def popDelta (op : Op) (before after : AppState) : Nat :=
  match op with
  | Op.popstate => before.navStack.length - after.navStack.length
  | _ => 0

/-- Deliver a list of events in order, accumulating state, log and pop count. -/
def runTr (products : List Int) (t : Trace) : List Op → Trace
  | [] => t
  | op :: ops =>
      runTr products
        { state := (step products op t.state).1
          log := t.log ++ (step products op t.state).2
          pops := t.pops + popDelta op t.state (step products op t.state).1 } ops

/-- The trace at page load. -/
def initTrace (isAdmin isAffiliate hashIsProduct : Bool) : Trace :=
  { state := initState isAdmin isAffiliate hashIsProduct, log := [], pops := 0 }

/-- Whether a history operation creates a new physical entry. -/
def HistOp.isPush : HistOp → Bool
  | HistOp.back => false
  | _ => true

/-- Whether a history operation is a housekeeping trap push. -/
def HistOp.isTrap : HistOp → Bool
  | HistOp.pushTrap => true
  | _ => false

/-- Whether a history operation is the entry push of `pushNavState`. -/
def HistOp.isEntryPush : HistOp → Bool
  | HistOp.pushEntry _ => true
  | _ => false

/-- Count of physical pushes other than trap pushes in a log. -/
def nonTrapPushes (l : List HistOp) : Nat :=
  (l.filter (fun o => o.isPush && !o.isTrap)).length

/-- Count of `pushNavState` pushes in a log. -/
def entryPushes (l : List HistOp) : Nat :=
  (l.filter HistOp.isEntryPush).length

/-- Exception-aware `pushNavState`: the source wraps no history call in
try/catch, so when `window.history.pushState` throws the exception escapes
the function.  The `Except` value carries the component state at the moment
control leaves the function: `setNavStack` precedes the physical push, so the
stack append has taken effect either way. -/
def pushNavStateE (histOk : Bool) (navState : NavEntry) (s : AppState) :
    Except AppState AppState :=
  let s1 := { s with navStack := s.navStack ++ [navState] }
  if histOk then Except.ok s1 else Except.error s1

/-- Exception-aware `handleExitConfirm`: all three state writes precede the
`window.history.back()` call, which is not guarded by any handler. -/
def handleExitConfirmE (histOk : Bool) (s : AppState) : Except AppState AppState :=
  let s1 := { s with exitConfirmationShown := false
                     showExitConfirmation := false
                     allowExit := true }
  if histOk then Except.ok s1 else Except.error s1

/-- Exception-aware `handleExitCancel`: both state writes precede the
unguarded trap push. -/
def handleExitCancelE (histOk : Bool) (s : AppState) : Except AppState AppState :=
  let s1 := { s with exitConfirmationShown := false, showExitConfirmation := false }
  if histOk then Except.ok s1 else Except.error s1

/-
Namespace V2 embeds the navigation core of the second app variant,
src/unnamed/part_000, translated independently from that file: the restore
chain and popstate handler are its lines 513-576, pushNavState its lines
589-592, navigateTo its lines 595-601, handleLogout its lines 1217-1228,
handleExitConfirm its lines 1237-1242, handleExitCancel its lines 1245-1250,
and the selected-product URL effect its lines 500-508.  The data model
(NavEntry, AppState, HistOp, Op, Trace) is shared: both variants declare the
same state with the same initial values.
-/

namespace V2

/-- Restore chain of the part_000 popstate handler (lines 546-572). -/
def restoreView (products : List Int) (prevState : NavEntry) (s : AppState) : AppState :=
  match prevState with
  | NavEntry.home =>
      let s1 := { s with activeTab := "home", selectedProduct := none, showCMS := false }
      if s.isAffiliate then { s1 with affiliateActiveTab := "home" } else s1
  | NavEntry.tab value =>
      { s with activeTab := value, selectedProduct := none, showCMS := false }
  | NavEntry.product id =>
      if products.contains id then { s with selectedProduct := some id }
      else { s with selectedProduct := none, activeTab := "home" }
  | NavEntry.cms =>
      if s.isAdmin then { s with showCMS := true } else s
  | NavEntry.affiliateTab tab =>
      if s.isAffiliate then { s with affiliateActiveTab := tab } else s

/-- Popstate handler of part_000 (lines 513-576). -/
def handlePopState (products : List Int) (s : AppState) : AppState × List HistOp :=
  if s.allowExit then
    ({ s with allowExit := false }, [])
  else if s.exitConfirmationShown then
    ({ s with exitConfirmationShown := false, showExitConfirmation := false },
     [HistOp.pushTrap])
  else if s.navStack.length ≤ 1 then
    ({ s with exitConfirmationShown := true, showExitConfirmation := true },
     [HistOp.pushTrap])
  else
    let newStack := s.navStack.dropLast
    match newStack.getLast? with
    | some prevState =>
        ({ restoreView products prevState s with navStack := newStack }, [])
    | none => ({ s with navStack := newStack }, [])

/-- pushNavState of part_000 (lines 589-592). -/
def pushNavState (navState : NavEntry) (s : AppState) : AppState × List HistOp :=
  ({ s with navStack := s.navStack ++ [navState] }, [HistOp.pushEntry navState])

/-- navigateTo of part_000 (lines 595-601). -/
def navigateTo (target : String) (s : AppState) : AppState × List HistOp :=
  pushNavState (NavEntry.tab target)
    { s with activeTab := target, selectedProduct := none }

/-- handleLogout of part_000 (lines 1217-1228). -/
def handleLogout (s : AppState) : AppState :=
  { s with isAdmin := false
           isAffiliate := false
           showCMS := false
           activeTab := "home"
           affiliateActiveTab := "home"
           navStack := [NavEntry.home] }

/-- handleExitConfirm of part_000 (lines 1237-1242). -/
def handleExitConfirm (s : AppState) : AppState × List HistOp :=
  ({ s with exitConfirmationShown := false
            showExitConfirmation := false
            allowExit := true },
   [HistOp.back])

/-- handleExitCancel of part_000 (lines 1245-1250). -/
def handleExitCancel (s : AppState) : AppState × List HistOp :=
  ({ s with exitConfirmationShown := false, showExitConfirmation := false },
   [HistOp.pushTrap])

/-- Selected-product URL effect of part_000 (lines 500-508). -/
def hashEffect (prevSelected : Option Int) (s : AppState) : AppState × List HistOp :=
  if s.selectedProduct = prevSelected then (s, [])
  else
    match s.selectedProduct with
    | some id => ({ s with hashIsProduct := true }, [HistOp.pushHash id])
    | none =>
        if s.hashIsProduct then
          ({ s with hashIsProduct := false }, [HistOp.pushClearHash])
        else (s, [])

/-- Effect sequencing for the part_000 variant; identical delivery model. -/
def withHashEffect (prevSelected : Option Int) (r : AppState × List HistOp) :
    AppState × List HistOp :=
  match hashEffect prevSelected r.1 with
  | (s1, l1) => (s1, r.2 ++ l1)

/-- One event delivery against the part_000 variant.  The push call sites are
its product card click (lines 2034-2036), CMS button (lines 2425-2427) and
affiliate tab buttons (lines 1418-1421). -/
def step (products : List Int) (op : Op) (s : AppState) : AppState × List HistOp :=
  match op with
  | Op.pushNav e => pushNavState e s
  | Op.goTo t => withHashEffect s.selectedProduct (navigateTo t s)
  | Op.openProduct id =>
      withHashEffect s.selectedProduct
        (pushNavState (NavEntry.product id) { s with selectedProduct := some id })
  | Op.openCms => pushNavState NavEntry.cms { s with showCMS := true }
  | Op.openAffiliateTab t =>
      pushNavState (NavEntry.affiliateTab t) { s with affiliateActiveTab := t }
  | Op.popstate => withHashEffect s.selectedProduct (handlePopState products s)
  | Op.confirmExit => handleExitConfirm s
  | Op.cancelExit => handleExitCancel s
  | Op.logout => (handleLogout s, [])

/-- Deliver a list of events against the part_000 variant. -/
def runTr (products : List Int) (t : Trace) : List Op → Trace
  | [] => t
  | op :: ops =>
      runTr products
        { state := (step products op t.state).1
          log := t.log ++ (step products op t.state).2
          pops := t.pops + popDelta op t.state (step products op t.state).1 } ops

end V2

/-! Helper lemmas. -/

/-- The selected-product effect never touches the stack or the exit flags and
never pushes a `pushNavState` entry. -/
theorem hashEffect_frame (o : Option Int) (s : AppState) :
    (hashEffect o s).1.navStack = s.navStack
    ∧ (hashEffect o s).1.allowExit = s.allowExit
    ∧ (hashEffect o s).1.exitConfirmationShown = s.exitConfirmationShown
    ∧ entryPushes (hashEffect o s).2 = 0 := by
  unfold hashEffect
  split
  · exact ⟨rfl, rfl, rfl, rfl⟩
  · split
    · exact ⟨rfl, rfl, rfl, rfl⟩
    · split
      · exact ⟨rfl, rfl, rfl, rfl⟩
      · exact ⟨rfl, rfl, rfl, rfl⟩

/-- The restore chain never touches the two exit flags. -/
theorem restoreView_flags (p : List Int) (e : NavEntry) (s : AppState) :
    (restoreView p e s).allowExit = s.allowExit
    ∧ (restoreView p e s).exitConfirmationShown = s.exitConfirmationShown := by
  cases e <;> dsimp only [restoreView] <;> (try split) <;> exact ⟨rfl, rfl⟩

/-- The popstate handler's log never contains a `pushNavState` entry push. -/
theorem handlePopState_entryPushes (p : List Int) (s : AppState) :
    entryPushes (handlePopState p s).2 = 0 := by
  unfold handlePopState
  split
  · rfl
  · split
    · rfl
    · split
      · rfl
      · dsimp only
        split <;> rfl

/-- The popstate handler either leaves the stack unchanged, or — when both
flags are down and the stack is above its floor — replaces it by its
`dropLast`. -/
theorem handlePopState_stack_cases (p : List Int) (s : AppState) :
    (handlePopState p s).1.navStack = s.navStack
    ∨ ((handlePopState p s).1.navStack = s.navStack.dropLast
        ∧ 1 < s.navStack.length) := by
  unfold handlePopState
  split
  · exact Or.inl rfl
  · split
    · exact Or.inl rfl
    · split
      · exact Or.inl rfl
      · rename_i h1 h2 h3
        have hlen : 1 < s.navStack.length := by omega
        dsimp only
        split <;> exact Or.inr ⟨rfl, hlen⟩

/-- Dropping the last element of a list of length at least two keeps its
head. -/
theorem dropLast_head_of_one_lt {α : Type} :
    ∀ (xs : List α), 1 < xs.length → xs.dropLast.head? = xs.head?
  | [], h => absurd h (by simp)
  | [_], h => absurd h (by simp)
  | _ :: _ :: _, _ => rfl

/-- Counting entry pushes distributes over log concatenation. -/
theorem entryPushes_append (l1 l2 : List HistOp) :
    entryPushes (l1 ++ l2) = entryPushes l1 + entryPushes l2 := by
  simp [entryPushes, List.filter_append]

/-- Appending an entry to a stack whose floor is Home keeps the floor. -/
theorem stack_floor_append (xs : List NavEntry) (e : NavEntry)
    (h1 : xs.head? = some NavEntry.home) (h2 : 1 ≤ xs.length) :
    (xs ++ [e]).head? = some NavEntry.home ∧ 1 ≤ (xs ++ [e]).length := by
  constructor
  · rw [List.head?_append_of_ne_nil _ (List.ne_nil_of_length_pos h2)]
    exact h1
  · simp

/-- The popstate handler keeps the two exit flags mutually exclusive. -/
theorem handlePopState_flag_excl (p : List Int) (s : AppState)
    (h : (s.allowExit && s.exitConfirmationShown) = false) :
    ((handlePopState p s).1.allowExit
      && (handlePopState p s).1.exitConfirmationShown) = false := by
  unfold handlePopState
  split
  · rfl
  · split
    · simp
    · split
      · rename_i h1 h2 h3
        simp only [Bool.not_eq_true] at h1
        simp [h1]
      · dsimp only
        split
        · rename_i prevState heq
          have hr := restoreView_flags p prevState s
          dsimp only
          rw [hr.1, hr.2]
          exact h
        · exact h

/-- One event delivery keeps the stack non-empty with Home at the floor. -/
theorem step_stack_floor (p : List Int) (op : Op) (s : AppState)
    (h1 : s.navStack.head? = some NavEntry.home) (h2 : 1 ≤ s.navStack.length) :
    (step p op s).1.navStack.head? = some NavEntry.home
    ∧ 1 ≤ (step p op s).1.navStack.length := by
  cases op with
  | pushNav e => exact stack_floor_append s.navStack e h1 h2
  | goTo t =>
      have hf := (hashEffect_frame s.selectedProduct (navigateTo t s).1).1
      have hnav : (step p (Op.goTo t) s).1.navStack
          = s.navStack ++ [NavEntry.tab t] := hf
      rw [hnav]
      exact stack_floor_append s.navStack _ h1 h2
  | openProduct id =>
      have hf := (hashEffect_frame s.selectedProduct
        (pushNavState (NavEntry.product id) { s with selectedProduct := some id }).1).1
      have hnav : (step p (Op.openProduct id) s).1.navStack
          = s.navStack ++ [NavEntry.product id] := hf
      rw [hnav]
      exact stack_floor_append s.navStack _ h1 h2
  | openCms => exact stack_floor_append s.navStack _ h1 h2
  | openAffiliateTab t => exact stack_floor_append s.navStack _ h1 h2
  | popstate =>
      have hf := (hashEffect_frame s.selectedProduct (handlePopState p s).1).1
      have hnav : (step p Op.popstate s).1.navStack
          = (handlePopState p s).1.navStack := hf
      rw [hnav]
      rcases handlePopState_stack_cases p s with hc | hc
      · rw [hc]; exact ⟨h1, h2⟩
      · rw [hc.1]
        constructor
        · rw [dropLast_head_of_one_lt s.navStack hc.2]; exact h1
        · rw [List.length_dropLast]; omega
  | confirmExit => exact ⟨h1, h2⟩
  | cancelExit => exact ⟨h1, h2⟩
  | logout => exact ⟨rfl, Nat.le_refl 1⟩

/-- One event delivery keeps the two exit flags mutually exclusive. -/
theorem step_flag_excl (p : List Int) (op : Op) (s : AppState)
    (h : (s.allowExit && s.exitConfirmationShown) = false) :
    ((step p op s).1.allowExit && (step p op s).1.exitConfirmationShown) = false := by
  cases op with
  | pushNav e => exact h
  | goTo t =>
      have hf := hashEffect_frame s.selectedProduct (navigateTo t s).1
      have ha : (step p (Op.goTo t) s).1.allowExit = s.allowExit := hf.2.1
      have hb : (step p (Op.goTo t) s).1.exitConfirmationShown
          = s.exitConfirmationShown := hf.2.2.1
      rw [ha, hb]; exact h
  | openProduct id =>
      have hf := hashEffect_frame s.selectedProduct
        (pushNavState (NavEntry.product id) { s with selectedProduct := some id }).1
      have ha : (step p (Op.openProduct id) s).1.allowExit = s.allowExit := hf.2.1
      have hb : (step p (Op.openProduct id) s).1.exitConfirmationShown
          = s.exitConfirmationShown := hf.2.2.1
      rw [ha, hb]; exact h
  | openCms => exact h
  | openAffiliateTab t => exact h
  | popstate =>
      have hf := hashEffect_frame s.selectedProduct (handlePopState p s).1
      have ha : (step p Op.popstate s).1.allowExit
          = (handlePopState p s).1.allowExit := hf.2.1
      have hb : (step p Op.popstate s).1.exitConfirmationShown
          = (handlePopState p s).1.exitConfirmationShown := hf.2.2.1
      rw [ha, hb]
      exact handlePopState_flag_excl p s h
  | confirmExit => simp [step, handleExitConfirm]
  | cancelExit => simp [step, handleExitCancel]
  | logout => exact h

/-- One event delivery other than logout balances stack growth against
`pushNavState` pushes and pops. -/
theorem step_len_balance (p : List Int) (op : Op) (s : AppState)
    (hop : op ≠ Op.logout) :
    (step p op s).1.navStack.length + popDelta op s (step p op s).1
      = s.navStack.length + entryPushes (step p op s).2 := by
  cases op with
  | pushNav e =>
      show (s.navStack ++ [e]).length + 0
        = s.navStack.length + entryPushes [HistOp.pushEntry e]
      simp [entryPushes, HistOp.isEntryPush]
  | goTo t =>
      have hf := hashEffect_frame s.selectedProduct (navigateTo t s).1
      have hnav : (step p (Op.goTo t) s).1.navStack
          = s.navStack ++ [NavEntry.tab t] := hf.1
      have hlog : entryPushes (step p (Op.goTo t) s).2 = 1 := by
        show entryPushes ([HistOp.pushEntry (NavEntry.tab t)]
          ++ (hashEffect s.selectedProduct (navigateTo t s).1).2) = 1
        rw [entryPushes_append, hf.2.2.2]
        rfl
      show (step p (Op.goTo t) s).1.navStack.length + 0
        = s.navStack.length + entryPushes (step p (Op.goTo t) s).2
      rw [hnav, hlog]
      simp
  | openProduct id =>
      have hf := hashEffect_frame s.selectedProduct
        (pushNavState (NavEntry.product id) { s with selectedProduct := some id }).1
      have hnav : (step p (Op.openProduct id) s).1.navStack
          = s.navStack ++ [NavEntry.product id] := hf.1
      have hlog : entryPushes (step p (Op.openProduct id) s).2 = 1 := by
        show entryPushes ([HistOp.pushEntry (NavEntry.product id)]
          ++ (hashEffect s.selectedProduct
            (pushNavState (NavEntry.product id)
              { s with selectedProduct := some id }).1).2) = 1
        rw [entryPushes_append, hf.2.2.2]
        rfl
      show (step p (Op.openProduct id) s).1.navStack.length + 0
        = s.navStack.length + entryPushes (step p (Op.openProduct id) s).2
      rw [hnav, hlog]
      simp
  | openCms =>
      show (s.navStack ++ [NavEntry.cms]).length + 0
        = s.navStack.length + entryPushes [HistOp.pushEntry NavEntry.cms]
      simp [entryPushes, HistOp.isEntryPush]
  | openAffiliateTab t =>
      show (s.navStack ++ [NavEntry.affiliateTab t]).length + 0
        = s.navStack.length + entryPushes [HistOp.pushEntry (NavEntry.affiliateTab t)]
      simp [entryPushes, HistOp.isEntryPush]
  | popstate =>
      have hf := hashEffect_frame s.selectedProduct (handlePopState p s).1
      have hnav : (step p Op.popstate s).1.navStack
          = (handlePopState p s).1.navStack := hf.1
      have hlog : entryPushes (step p Op.popstate s).2 = 0 := by
        show entryPushes ((handlePopState p s).2
          ++ (hashEffect s.selectedProduct (handlePopState p s).1).2) = 0
        rw [entryPushes_append, hf.2.2.2, handlePopState_entryPushes]
      have hdelta : popDelta Op.popstate s (step p Op.popstate s).1
          = s.navStack.length - (step p Op.popstate s).1.navStack.length := rfl
      rcases handlePopState_stack_cases p s with hc | hc
      · rw [hdelta, hnav, hc, hlog]; omega
      · rw [hdelta, hnav, hc.1, hlog, List.length_dropLast]
        have := hc.2
        omega
  | confirmExit =>
      show s.navStack.length + 0 = s.navStack.length + entryPushes [HistOp.back]
      rfl
  | cancelExit =>
      show s.navStack.length + 0 = s.navStack.length + entryPushes [HistOp.pushTrap]
      rfl
  | logout => exact absurd rfl hop

/-- Any state predicate preserved by every event delivery holds along every
run. -/
theorem runTr_state_pres (p : List Int) (P : AppState → Prop)
    (hstep : ∀ op s, P s → P (step p op s).1) :
    ∀ (ops : List Op) (t : Trace), P t.state → P (runTr p t ops).state := by
  intro ops
  induction ops with
  | nil => intro t ht; exact ht
  | cons op rest ih =>
      intro t ht
      exact ih _ (hstep op t.state ht)

/-- Along any run without a logout reset, stack length plus pops equals one
plus the number of `pushNavState` pushes. -/
theorem runTr_balance (p : List Int) :
    ∀ (ops : List Op), Op.logout ∉ ops → ∀ (t : Trace),
      t.state.navStack.length + t.pops = 1 + entryPushes t.log →
      (runTr p t ops).state.navStack.length + (runTr p t ops).pops
        = 1 + entryPushes (runTr p t ops).log := by
  intro ops
  induction ops with
  | nil => intro _ t ht; exact ht
  | cons op rest ih =>
      intro hmem t ht
      rw [List.mem_cons, not_or] at hmem
      have hop : op ≠ Op.logout := fun he => hmem.1 he.symm
      refine ih hmem.2 _ ?_
      show (step p op t.state).1.navStack.length
          + (t.pops + popDelta op t.state (step p op t.state).1)
        = 1 + entryPushes (t.log ++ (step p op t.state).2)
      have hb := step_len_balance p op t.state hop
      rw [entryPushes_append]
      omega

/-! Claim theorems. -/

/-- C1: every back/forward notification is decided by `handlePopState` in the
fixed priority order: an armed `allowExit` is cleared and nothing else happens;
else a showing confirmation is cleared, the modal hidden, one trap push issued
and nothing popped; else at stack length at most one the confirmation is shown
with one trap push and the stack untouched; else exactly one entry is popped,
the new top restored via `restoreView`, with no physical push at all. -/
theorem popstate_priority_order (p : List Int) (s : AppState) :
    (s.allowExit = true →
      handlePopState p s = ({ s with allowExit := false }, []))
    ∧ (s.allowExit = false → s.exitConfirmationShown = true →
      handlePopState p s
        = ({ s with exitConfirmationShown := false, showExitConfirmation := false },
           [HistOp.pushTrap]))
    ∧ (s.allowExit = false → s.exitConfirmationShown = false →
        s.navStack.length ≤ 1 →
      handlePopState p s
        = ({ s with exitConfirmationShown := true, showExitConfirmation := true },
           [HistOp.pushTrap]))
    ∧ (s.allowExit = false → s.exitConfirmationShown = false →
        1 < s.navStack.length →
      ∀ newTop : NavEntry, s.navStack.dropLast.getLast? = some newTop →
        handlePopState p s
          = ({ restoreView p newTop s with navStack := s.navStack.dropLast }, [])) := by
  refine ⟨?_, ?_, ?_, ?_⟩
  · intro h1
    simp [handlePopState, h1]
  · intro h1 h2
    simp [handlePopState, h1, h2]
  · intro h1 h2 h3
    simp [handlePopState, h1, h2, h3]
  · intro h1 h2 h3 newTop h4
    have h5 : ¬ s.navStack.length ≤ 1 := by omega
    simp [handlePopState, h1, h2, h5, h4]

/-- Witness for C1: a notification arriving with `allowExit` armed just clears
the flag. -/
theorem popstate_priority_order_witness :
    handlePopState [] { initState false false false with allowExit := true }
      = (initState false false false, []) :=
  (popstate_priority_order [] { initState false false false with allowExit := true }).1 rfl

/-- C2: after any event sequence — pushes, popstate deliveries, logouts and
the rest — the stack is non-empty and its floor entry is Home. -/
theorem navStack_floor_invariant (p : List Int) (a b h : Bool) (ops : List Op) :
    (runTr p (initTrace a b h) ops).state.navStack.head? = some NavEntry.home
    ∧ 1 ≤ (runTr p (initTrace a b h) ops).state.navStack.length :=
  runTr_state_pres p
    (fun s => s.navStack.head? = some NavEntry.home ∧ 1 ≤ s.navStack.length)
    (fun op s hs => step_stack_floor p op s hs.1 hs.2)
    ops (initTrace a b h) ⟨rfl, Nat.le_refl 1⟩

/-- C3: along every run from page load at most one of the two ExitGuard flags
is up, and `handleExitConfirm` leaves `exitConfirmationShown` cleared while
arming `allowExit` — its clear of the confirmation flag precedes the arming,
so no state with both flags up ever arises. -/
theorem exitGuard_mutual_exclusion (p : List Int) (a b h : Bool) (ops : List Op) :
    ((runTr p (initTrace a b h) ops).state.allowExit
      && (runTr p (initTrace a b h) ops).state.exitConfirmationShown) = false
    ∧ ∀ s : AppState,
        (handleExitConfirm s).1.exitConfirmationShown = false
        ∧ (handleExitConfirm s).1.allowExit = true :=
  ⟨runTr_state_pres p
      (fun s => (s.allowExit && s.exitConfirmationShown) = false)
      (fun op s hs => step_flag_excl p op s hs)
      ops (initTrace a b h) rfl,
   fun _ => ⟨rfl, rfl⟩⟩

/-- Counterexample to C4: from the reachable state in which the exit
confirmation is showing (one back-press at the floor), logout leaves both the
`exitConfirmationShown` flag and the visible confirmation up, whereas the
claim says logout clears both ExitGuard flags and the visible confirmation. -/
theorem logout_keeps_confirmation_counterexample :
    ((handleLogout (step [] Op.popstate (initState false false false)).1).exitConfirmationShown
      && (handleLogout (step [] Op.popstate (initState false false false)).1).showExitConfirmation)
      = true := by decide

/-- C4 amended: logout resets the stack to exactly `[Home]`, closes the CMS
and resets both tab selections and the role flags, but leaves both ExitGuard
flags and the visible confirmation exactly as they were; the controller
returns to Idle only if it already was Idle. -/
theorem logout_resets_stack_keeps_exit_flags (s : AppState) :
    (handleLogout s).navStack = [NavEntry.home]
    ∧ (handleLogout s).allowExit = s.allowExit
    ∧ (handleLogout s).exitConfirmationShown = s.exitConfirmationShown
    ∧ (handleLogout s).showExitConfirmation = s.showExitConfirmation
    ∧ (handleLogout s).showCMS = false
    ∧ (handleLogout s).activeTab = "home"
    ∧ (handleLogout s).affiliateActiveTab = "home"
    ∧ (handleLogout s).isAdmin = false
    ∧ (handleLogout s).isAffiliate = false :=
  ⟨rfl, rfl, rfl, rfl, rfl, rfl, rfl, rfl, rfl⟩

/-- Counterexample to C5: at page load the stack already has length one while
the subsystem has pushed nothing, and after opening a product and one
back-press the stack has length one while three non-trap physical pushes have
been issued (the `pushNavState` push plus the two hash pushes of the
selected-product effect), so stack length does not equal the number of
non-trap pushes. -/
theorem push_correspondence_counterexample :
    (((runTr [] (initTrace false false false) []).state.navStack.length
        == nonTrapPushes (runTr [] (initTrace false false false) []).log) = false)
    ∧ (((runTr [42] (initTrace false false false)
          [Op.openProduct 42, Op.popstate]).state.navStack.length
        == nonTrapPushes (runTr [42] (initTrace false false false)
          [Op.openProduct 42, Op.popstate]).log) = false) := by
  constructor
  · decide
  · decide

/-- C5 amended: along any run without a logout reset, the stack length equals
one (the seeded floor entry, never physically pushed) plus the number of
physical pushes issued by `pushNavState` minus the number of entries popped by
back-handling; trap pushes and the pushes of the selected-product hash effect
are additional physical pushes never reflected in the stack length. -/
theorem push_correspondence_amended (p : List Int) (a b h : Bool)
    (ops : List Op) (hmem : Op.logout ∉ ops) :
    (runTr p (initTrace a b h) ops).state.navStack.length
      + (runTr p (initTrace a b h) ops).pops
      = 1 + entryPushes (runTr p (initTrace a b h) ops).log :=
  runTr_balance p ops hmem (initTrace a b h) rfl

/-- Witness for the amended C5: push one tab entry then deliver one
back-press; the stack is back at length one, one entry was pushed and one
entry was popped. -/
theorem push_correspondence_amended_witness :
    (runTr [] (initTrace false false false)
        [Op.pushNav (NavEntry.tab "cart"), Op.popstate]).state.navStack.length
      + (runTr [] (initTrace false false false)
        [Op.pushNav (NavEntry.tab "cart"), Op.popstate]).pops
      = 1 + entryPushes (runTr [] (initTrace false false false)
        [Op.pushNav (NavEntry.tab "cart"), Op.popstate]).log :=
  push_correspondence_amended [] false false false
    [Op.pushNav (NavEntry.tab "cart"), Op.popstate] (by decide)

/-- Counterexample to C6: the source wraps no history call in any handler, so
with a throwing history mechanism `pushNavState` ends in an uncaught
exception (the `Except.error`), where the claim says no exception propagates
out of it. -/
theorem pushNavState_throw_counterexample :
    pushNavStateE false (NavEntry.tab "cart") (initState false false false)
      = Except.error { initState false false false with
          navStack := [NavEntry.home, NavEntry.tab "cart"] } := rfl

/-- C6 amended: when the underlying history operation throws, the exception
propagates uncaught out of `pushNavState`, `handleExitConfirm` and
`handleExitCancel` — the code installs no handler — but every state update
made before the physical call (the stack append, the flag writes) has already
taken effect, so the logical NavStack state is the same as on the
non-throwing path. -/
theorem history_throw_propagates (e : NavEntry) (s : AppState) :
    pushNavStateE false e s = Except.error { s with navStack := s.navStack ++ [e] }
    ∧ pushNavStateE true e s = Except.ok (pushNavState e s).1
    ∧ handleExitConfirmE false s
        = Except.error { s with exitConfirmationShown := false,
                                showExitConfirmation := false, allowExit := true }
    ∧ handleExitConfirmE true s = Except.ok (handleExitConfirm s).1
    ∧ handleExitCancelE false s
        = Except.error { s with exitConfirmationShown := false,
                                showExitConfirmation := false }
    ∧ handleExitCancelE true s = Except.ok (handleExitCancel s).1 :=
  ⟨rfl, rfl, rfl, rfl, rfl, rfl⟩

/-- C7: when a back-press pops onto a `Product(id)` entry, the handler — a
total function, so no exception path exists — shows the product if `id`
resolves in the catalog and otherwise falls back to Home: product view
cleared and home tab selected. -/
theorem product_restore_fallback (p : List Int) (s : AppState)
    (front : List NavEntry) (pid : Int) (topEntry : NavEntry)
    (h1 : s.allowExit = false) (h2 : s.exitConfirmationShown = false)
    (h3 : s.navStack = front ++ [NavEntry.product pid, topEntry]) :
    (handlePopState p s).1.navStack = front ++ [NavEntry.product pid]
    ∧ (p.contains pid = false →
        (handlePopState p s).1.selectedProduct = none
        ∧ (handlePopState p s).1.activeTab = "home")
    ∧ (p.contains pid = true →
        (handlePopState p s).1.selectedProduct = some pid) := by
  have hassoc : s.navStack = (front ++ [NavEntry.product pid]) ++ [topEntry] := by
    rw [h3, List.append_assoc]
    rfl
  have hlen : ¬ s.navStack.length ≤ 1 := by
    rw [h3]
    simp
  have hdrop : s.navStack.dropLast = front ++ [NavEntry.product pid] := by
    rw [hassoc, List.dropLast_concat]
  have hlast : s.navStack.dropLast.getLast? = some (NavEntry.product pid) := by
    rw [hdrop, List.getLast?_concat]
  have hres : handlePopState p s
      = ({ restoreView p (NavEntry.product pid) s with
            navStack := s.navStack.dropLast }, []) := by
    simp [handlePopState, h1, h2, hlen, hlast]
  rw [hres, hdrop]
  refine ⟨rfl, ?_, ?_⟩
  · intro hc
    dsimp only [restoreView]
    rw [hc]
    exact ⟨rfl, rfl⟩
  · intro hc
    dsimp only [restoreView]
    rw [hc]
    rfl

/-- Witness for C7: popping onto `Product(7)` with an empty catalog clears the
product view and selects the home tab. -/
theorem product_restore_fallback_witness :
    (handlePopState [] { initState false false false with
        navStack := [NavEntry.home, NavEntry.product 7, NavEntry.tab "cart"] }).1.selectedProduct
      = none
    ∧ (handlePopState [] { initState false false false with
        navStack := [NavEntry.home, NavEntry.product 7, NavEntry.tab "cart"] }).1.activeTab
      = "home" :=
  (product_restore_fallback []
    { initState false false false with
        navStack := [NavEntry.home, NavEntry.product 7, NavEntry.tab "cart"] }
    [NavEntry.home] 7 (NavEntry.tab "cart") rfl rfl rfl).2.1 rfl

/-- Counterexample to C8: starting from the reachable state with the
confirmation showing, two consecutive `handleExitCancel` calls issue two trap
pushes, not the single one the claim asserts across the pair — the second
call repeats the physical push even though the flag is already cleared. -/
theorem cancelExit_double_trap_counterexample :
    (runTr [] { state := (step [] Op.popstate (initState false false false)).1,
                log := [], pops := 0 }
        [Op.cancelExit, Op.cancelExit]).log
      = [HistOp.pushTrap, HistOp.pushTrap] := by decide

/-- C8 amended: calling `handleExitCancel` twice leaves the controller state
identical to calling it once — the flag writes are idempotent — but the
second call is not a no-op on the physical history: each of the two calls
unconditionally issues exactly one trap push, so two across the pair. -/
theorem cancelExit_idempotent_state_double_trap (s : AppState) :
    (handleExitCancel (handleExitCancel s).1).1 = (handleExitCancel s).1
    ∧ (handleExitCancel s).2 = [HistOp.pushTrap]
    ∧ (handleExitCancel (handleExitCancel s).1).2 = [HistOp.pushTrap] :=
  ⟨rfl, rfl, rfl⟩

/-- C9: from every state — confirmation showing or exit armed included —
`pushNavState` appends exactly the given entry to the stack, issues exactly
one physical push carrying it, and leaves every other component of the state
unchanged: both ExitGuard flags, the visible confirmation, the active tab,
the selected product, the CMS flag, the affiliate tab, the roles and the URL
fragment state. -/
theorem pushNavState_frame (e : NavEntry) (s : AppState) :
    (pushNavState e s).1.navStack = s.navStack ++ [e]
    ∧ (pushNavState e s).2 = [HistOp.pushEntry e]
    ∧ (pushNavState e s).1.allowExit = s.allowExit
    ∧ (pushNavState e s).1.exitConfirmationShown = s.exitConfirmationShown
    ∧ (pushNavState e s).1.showExitConfirmation = s.showExitConfirmation
    ∧ (pushNavState e s).1.activeTab = s.activeTab
    ∧ (pushNavState e s).1.selectedProduct = s.selectedProduct
    ∧ (pushNavState e s).1.showCMS = s.showCMS
    ∧ (pushNavState e s).1.affiliateActiveTab = s.affiliateActiveTab
    ∧ (pushNavState e s).1.isAdmin = s.isAdmin
    ∧ (pushNavState e s).1.isAffiliate = s.isAffiliate
    ∧ (pushNavState e s).1.hashIsProduct = s.hashIsProduct :=
  ⟨rfl, rfl, rfl, rfl, rfl, rfl, rfl, rfl, rfl, rfl, rfl, rfl⟩

/-- C10: the navigation cores of the two app variants are behaviorally
equivalent: delivered any event sequence from any starting trace, the
part_000 controller (namespace V2) and the script.js controller produce
identical traces — the same stack contents, the same ExitGuard flag values,
the same view-restoration state and the same physical history operations. -/
theorem variants_equivalent (p : List Int) (t : Trace) (ops : List Op) :
    V2.runTr p t ops = runTr p t ops := by
  induction ops generalizing t with
  | nil => rfl
  | cons op rest ih =>
      have hstep : V2.step p op t.state = step p op t.state := by
        cases op <;> rfl
      show V2.runTr p
          { state := (V2.step p op t.state).1
            log := t.log ++ (V2.step p op t.state).2
            pops := t.pops + popDelta op t.state (V2.step p op t.state).1 } rest
        = runTr p
          { state := (step p op t.state).1
            log := t.log ++ (step p op t.state).2
            pops := t.pops + popDelta op t.state (step p op t.state).1 } rest
      rw [hstep]
      exact ih _

end Nextorder
